import Mathlib

/-!
Shallow embedding of the flight-management service (src/main.py):
the safelist-constrained list-query builder (`get_flights`), the mutation
engine (`add_flight`, `update_flight`, `delete_flight`) over an explicit
store state, and the snapshot resync step (`save_sqlite_to_json`) whose
environment outcome (file write succeeding or raising) is an explicit
input.  Python string primitives used by the code (`str.split`,
`str.strip`, `str.upper`, truthiness of `Optional[str]`) are embedded as
executable functions over character lists.
-/

deriving instance DecidableEq for Except

namespace FlightApi

/-! ## Python string primitives -/

/-- Python `str.strip` whitespace set (ASCII part). -/
def isSpace (c : Char) : Bool :=
  c = ' ' ∨ c = '\t' ∨ c = '\n' ∨ c = '\r' ∨ c = '\x0b' ∨ c = '\x0c'

/-- Python `str.strip()`: drop whitespace from both ends. -/
def pyStrip (s : String) : String :=
  ⟨((s.data.dropWhile isSpace).reverse.dropWhile isSpace).reverse⟩

/-- Splitting a character list at every occurrence of `sep`
(no merging of adjacent separators; the empty list yields `[[]]`),
matching Python `str.split(sep)`. -/
def splitChars (sep : Char) : List Char → List (List Char)
  | [] => [[]]
  | c :: rest =>
    let r := splitChars sep rest
    if c = sep then [] :: r
    else
      match r with
      | [] => [[c]]
      | h :: t => (c :: h) :: t

/-- Python `s.split(",")`. -/
def pySplitComma (s : String) : List String :=
  (splitChars ',' s.data).map (fun cs => ⟨cs⟩)

/-- Python `str.upper` on one character (ASCII). -/
def upperChar (c : Char) : Char :=
  if 'a' ≤ c ∧ c ≤ 'z' then Char.ofNat (c.toNat - 32) else c

/-- Python `s.upper()`. -/
def pyUpper (s : String) : String := ⟨s.data.map upperChar⟩

/-- Python truthiness of an `Optional[str]`: `None` and `""` are falsy
(used by `if filter_field and filter_value:` at src/main.py line 220). -/
def truthy : Option String → Bool
  | none => false
  | some s => s ≠ ""

/-! ## Constants and basic shapes -/

/-- The constant `TABLE_NAME = "flights"` (src/main.py line 12). -/
def TABLE_NAME : String := "flights"

/-- The safelist of column names, `allowed_columns` in `get_flights`
(src/main.py lines 197-201). -/
def allowed_columns : List String :=
  ["flight_id", "flight_number", "origin", "destination", "departure_time",
   "arrival_time", "duration_minutes", "aircraft_type", "seats_total",
   "seats_available", "status", "created_at", "updated_at", "process_id"]

/-- A bound parameter of a parameterized SQL statement: the code binds
integers (limit, offset) and strings (the LIKE pattern). -/
inductive SqlParam where
  | int (i : Int)
  | str (s : String)
deriving Repr, DecidableEq

/-- An error response surfaced to the HTTP caller: either an
`HTTPException(status, detail)` raised by the handler, or an exception the
handler does not catch, which the framework turns into a generic server
error response. -/
inductive ApiErr where
  | http (status : Nat) (detail : String)
  | unhandled (msg : String)
deriving Repr, DecidableEq

/-! ## Query Builder (`get_flights`, src/main.py lines 184-232) -/

/-- Column-selection step of `get_flights` (src/main.py lines 204-211):
split `columns` on commas; unless the wildcard `"*"` was passed, each piece
must, after stripping, be in `allowed_columns`, else a 400 naming the (raw,
unstripped) first offending piece; the select clause rejoins the raw
pieces. -/
def selectClause (columns : String) : Except ApiErr String :=
  let selected_columns := pySplitComma columns
  if columns ≠ "*" then
    match selected_columns.find? (fun col => ¬ allowed_columns.contains (pyStrip col)) with
    | some col => .error (.http 400 ("Invalid column: " ++ col))
    | none => .ok (String.intercalate "," selected_columns)
  else .ok "*"

/-- Filter step of `get_flights` (src/main.py lines 220-226): only when
both `filter_field` and `filter_value` are truthy is the field validated
and a `WHERE field LIKE ?` clause emitted, the bound pattern wrapping the
value in `%` wildcards. -/
def filterClause (filter_field filter_value : Option String) :
    Except ApiErr (String × List SqlParam) :=
  if truthy filter_field && truthy filter_value then
    let f := filter_field.getD ""
    let v := filter_value.getD ""
    if allowed_columns.contains f then
      .ok (" WHERE " ++ f ++ " LIKE ?", [.str ("%" ++ v ++ "%")])
    else .error (.http 400 "Invalid filter field")
  else .ok ("", [])

/-- Query construction of `get_flights` (src/main.py lines 204-232): column
validation, sort-column validation, optional filter, `ORDER BY` with the
upper-cased direction, and `LIMIT ? OFFSET ?` with `offset = (page-1) *
per_page`, all errors raised in source order. Returns the composed query
text and its bound parameters. -/
def buildListQuery (page per_page : Int) (sort_by sort_order columns : String)
    (filter_field filter_value : Option String) :
    Except ApiErr (String × List SqlParam) :=
  match selectClause columns with
  | .error e => .error e
  | .ok sel =>
    if allowed_columns.contains sort_by then
      match filterClause filter_field filter_value with
      | .error e => .error e
      | .ok (w, wps) =>
        .ok ("SELECT " ++ sel ++ " FROM " ++ TABLE_NAME ++ w
              ++ " ORDER BY " ++ sort_by ++ " " ++ pyUpper sort_order
              ++ " LIMIT ? OFFSET ?",
             wps ++ [.int per_page, .int ((page - 1) * per_page)])
    else .error (.http 400 "Invalid sort column")

/-- The `GET /flights` handler up to query construction (src/main.py lines
184-232).  The framework-level `Query` validators run first: `page ≥ 1`,
`1 ≤ per_page ≤ 100`, and `sort_order` must match the case-sensitive
pattern `^(asc|desc)$` (src/main.py lines 186-189); a violation is a 422
validation error. -/
def get_flights (page per_page : Int) (sort_by sort_order columns : String)
    (filter_field filter_value : Option String) :
    Except ApiErr (String × List SqlParam) :=
  if page < 1 then
    .error (.http 422 "page: input should be greater than or equal to 1")
  else if per_page < 1 ∨ 100 < per_page then
    .error (.http 422 "per_page: input should be in range 1 to 100")
  else if sort_order ≠ "asc" ∧ sort_order ≠ "desc" then
    .error (.http 422 "sort_order: string should match pattern (asc|desc)")
  else buildListQuery page per_page sort_by sort_order columns filter_field filter_value

/-! ## Data model and store state -/

/-- One row of the `flights` table (schema at src/main.py lines 77-94). -/
structure Flight where
  flight_id : Int
  flight_number : String
  origin : String
  destination : String
  departure_time : String
  arrival_time : String
  duration_minutes : Int
  aircraft_type : String
  seats_total : Int
  seats_available : Int
  status : String
  created_at : String
  updated_at : String
  process_id : String
deriving Repr, DecidableEq

/-- The `FlightCreate` request body (src/main.py lines 135-150): all
client-writable fields, no identity or timestamps. -/
structure FlightCreate where
  flight_number : String
  origin : String
  destination : String
  departure_time : String
  arrival_time : String
  duration_minutes : Int
  aircraft_type : String
  seats_total : Int
  seats_available : Int
  status : String
  process_id : String
deriving Repr, DecidableEq

/-- The `FlightUpdate` request body (src/main.py lines 153-165): every field
optional; `none` models a field absent from the request (excluded by
`flight.dict(exclude_unset=True)`). -/
structure FlightUpdate where
  flight_number : Option String := none
  origin : Option String := none
  destination : Option String := none
  departure_time : Option String := none
  arrival_time : Option String := none
  duration_minutes : Option Int := none
  aircraft_type : Option String := none
  seats_total : Option Int := none
  seats_available : Option Int := none
  status : Option String := none
  process_id : Option String := none
deriving Repr, DecidableEq

/-- Whether `flight.dict(exclude_unset=True)` is non-empty
(src/main.py lines 286-288). -/
def FlightUpdate.hasFields (u : FlightUpdate) : Bool :=
  u.flight_number.isSome || u.origin.isSome || u.destination.isSome ||
  u.departure_time.isSome || u.arrival_time.isSome ||
  u.duration_minutes.isSome || u.aircraft_type.isSome ||
  u.seats_total.isSome || u.seats_available.isSome ||
  u.status.isSome || u.process_id.isSome

/-- The relational store: the rows of the `flights` table plus the
AUTOINCREMENT sequence (the next `flight_id` SQLite will assign;
`flight_id INTEGER PRIMARY KEY AUTOINCREMENT`, src/main.py line 79). -/
structure DB where
  rows : List Flight
  nextId : Int
deriving Repr, DecidableEq

/-- The two persistence layers: the authoritative relational store and the
JSON snapshot file contents. -/
structure SysState where
  db : DB
  file : List Flight
deriving Repr, DecidableEq

/-- Environment outcome of one snapshot-resync attempt: the file write
succeeds, or the store read raises `sqlite3.Error`, or the file I/O raises
a non-sqlite exception (e.g. `OSError`). -/
inductive SyncOutcome where
  | ok
  | dbError (msg : String)
  | ioError (msg : String)
deriving Repr, DecidableEq

/-- A Python exception escaping `save_sqlite_to_json`. -/
inductive PyExc where
  | sqliteError (msg : String)
  | osError (msg : String)
deriving Repr, DecidableEq

/-- Function `save_sqlite_to_json` (src/main.py lines 121-130): reads the whole
table and overwrites the JSON file with it.  It contains no error
handling, so a failing step raises to the caller; on success the file
mirrors the table exactly. -/
def save_sqlite_to_json (s : SysState) : SyncOutcome → Except PyExc SysState
  | .ok => .ok { s with file := s.db.rows }
  | .dbError m => .error (.sqliteError m)
  | .ioError m => .error (.osError m)

/-! ## Mutation Engine -/

/-- The row inserted by `add_flight` (src/main.py lines 250-261): client
fields verbatim, the store-assigned id, and one timestamp string used for
both `created_at` and `updated_at`. -/
def insertRow (f : FlightCreate) (new_id : Int) (current_time : String) : Flight :=
  { flight_id := new_id
    flight_number := f.flight_number
    origin := f.origin
    destination := f.destination
    departure_time := f.departure_time
    arrival_time := f.arrival_time
    duration_minutes := f.duration_minutes
    aircraft_type := f.aircraft_type
    seats_total := f.seats_total
    seats_available := f.seats_available
    status := f.status
    created_at := current_time
    updated_at := current_time
    process_id := f.process_id }

/-- Response of a successful `POST /flights` (src/main.py lines 267-273):
`{"flight_id": new_id, **flight.dict(), "created_at": t, "updated_at": t,
"message": "Flight created"}`, i.e. the full persisted row plus a
message. -/
structure AddResponse where
  flight : Flight
  message : String
deriving Repr, DecidableEq

/-- Handler `add_flight` (src/main.py lines 242-275): insert the row with a fresh
id and one timestamp, commit, then resync the snapshot.  A `sqlite3.Error`
raised by the resync is caught by the handler's `except sqlite3.Error` and
re-raised as `HTTPException(500, str(e))`; any other exception escapes the
handler.  In both failure cases the committed insert stays in the store. -/
def add_flight (s : SysState) (flight : FlightCreate) (current_time : String)
    (sync : SyncOutcome) : SysState × Except ApiErr AddResponse :=
  let new_id := s.db.nextId
  let row := insertRow flight new_id current_time
  let s1 : SysState :=
    { db := { rows := s.db.rows ++ [row], nextId := new_id + 1 }, file := s.file }
  match save_sqlite_to_json s1 sync with
  | .ok s2 => (s2, .ok { flight := row, message := "Flight created" })
  | .error (.sqliteError m) => (s1, .error (.http 500 m))
  | .error (.osError m) => (s1, .error (.unhandled m))

/-- Applying the sparse field map of an update to one row (src/main.py
lines 286-298): each supplied field is overwritten, `updated_at` is always
set to the current time, and `flight_id`, `created_at` and every omitted
field keep their prior values. -/
def applyUpdate (r : Flight) (u : FlightUpdate) (current_time : String) : Flight :=
  { flight_id := r.flight_id
    flight_number := u.flight_number.getD r.flight_number
    origin := u.origin.getD r.origin
    destination := u.destination.getD r.destination
    departure_time := u.departure_time.getD r.departure_time
    arrival_time := u.arrival_time.getD r.arrival_time
    duration_minutes := u.duration_minutes.getD r.duration_minutes
    aircraft_type := u.aircraft_type.getD r.aircraft_type
    seats_total := u.seats_total.getD r.seats_total
    seats_available := u.seats_available.getD r.seats_available
    status := u.status.getD r.status
    created_at := r.created_at
    updated_at := current_time
    process_id := u.process_id.getD r.process_id }

/-- Response of a successful `PUT /flights/{flight_id}` (src/main.py line
301): the message plus the applied field map (the supplied fields together
with the `updated_at` value added to it). -/
structure UpdateResponse where
  message : String
  updated_fields : FlightUpdate
  updated_fields_updated_at : String
deriving Repr, DecidableEq

/-- Handler `update_flight` (src/main.py lines 278-303): 404 if no row has the
target id; 400 if the request supplied no fields; otherwise apply the
sparse map plus `updated_at` in one UPDATE, commit, then resync with the
same exception handling as `add_flight`. -/
def update_flight (s : SysState) (flight_id : Int) (flight : FlightUpdate)
    (current_time : String) (sync : SyncOutcome) :
    SysState × Except ApiErr UpdateResponse :=
  if ¬ s.db.rows.any (fun r => r.flight_id = flight_id) then
    (s, .error (.http 404 "Flight not found"))
  else if ¬ flight.hasFields then
    (s, .error (.http 400 "No fields to update"))
  else
    let rows1 := s.db.rows.map
      (fun r => if r.flight_id = flight_id then applyUpdate r flight current_time else r)
    let s1 : SysState := { db := { s.db with rows := rows1 }, file := s.file }
    match save_sqlite_to_json s1 sync with
    | .ok s2 =>
      (s2, .ok { message := "Flight updated", updated_fields := flight,
                 updated_fields_updated_at := current_time })
    | .error (.sqliteError m) => (s1, .error (.http 500 m))
    | .error (.osError m) => (s1, .error (.unhandled m))

/-- Handler `delete_flight` (src/main.py lines 306-320): 404 if no row has the
target id; otherwise delete the row, commit, then resync with the same
exception handling as `add_flight`.  The success response is the message
`"Flight deleted"`. -/
def delete_flight (s : SysState) (flight_id : Int) (sync : SyncOutcome) :
    SysState × Except ApiErr String :=
  if ¬ s.db.rows.any (fun r => r.flight_id = flight_id) then
    (s, .error (.http 404 "Flight not found"))
  else
    let rows1 := s.db.rows.filter (fun r => ¬ r.flight_id = flight_id)
    let s1 : SysState := { db := { s.db with rows := rows1 }, file := s.file }
    match save_sqlite_to_json s1 sync with
    | .ok s2 => (s2, .ok "Flight deleted")
    | .error (.sqliteError m) => (s1, .error (.http 500 m))
    | .error (.osError m) => (s1, .error (.unhandled m))

/-! ## Read execution model

Executing the composed list query against the store: SQLite sorts the rows
by the requested column (`ORDER BY col ASC|DESC`), then applies
`OFFSET`/`LIMIT`.  Row order among equal sort keys is not promised by the
store; the model fixes a deterministic (stable) order.  Integer columns
compare numerically, text columns byte-wise (BINARY collation). -/

/-- A column value of a row: SQLite INTEGER or TEXT. -/
inductive ColVal where
  | int (i : Int)
  | str (s : String)
deriving Repr, DecidableEq

/-- Byte-wise (codepoint) lexicographic order on text, SQLite's BINARY
collation. -/
def lexLe : List Char → List Char → Bool
  | [], _ => true
  | _ :: _, [] => false
  | a :: as, b :: bs => if a < b then true else if b < a then false else lexLe as bs

/-- SQLite ordering of column values (INTEGER sorts before TEXT). -/
def colValLe : ColVal → ColVal → Bool
  | .int a, .int b => a ≤ b
  | .int _, .str _ => true
  | .str _, .int _ => false
  | .str a, .str b => lexLe a.data b.data

/-- The value of a named column of a row (columns per the schema,
src/main.py lines 77-94). -/
def Flight.col (r : Flight) (name : String) : ColVal :=
  if name = "flight_id" then .int r.flight_id
  else if name = "flight_number" then .str r.flight_number
  else if name = "origin" then .str r.origin
  else if name = "destination" then .str r.destination
  else if name = "departure_time" then .str r.departure_time
  else if name = "arrival_time" then .str r.arrival_time
  else if name = "duration_minutes" then .int r.duration_minutes
  else if name = "aircraft_type" then .str r.aircraft_type
  else if name = "seats_total" then .int r.seats_total
  else if name = "seats_available" then .int r.seats_available
  else if name = "status" then .str r.status
  else if name = "created_at" then .str r.created_at
  else if name = "updated_at" then .str r.updated_at
  else .str r.process_id

/-- Row comparison used by `ORDER BY sort_by ASC|DESC`. -/
def keyLe (sort_by : String) (descending : Bool) (a b : Flight) : Bool :=
  if descending then colValLe (Flight.col b sort_by) (Flight.col a sort_by)
  else colValLe (Flight.col a sort_by) (Flight.col b sort_by)

/-- The store's ordered result for `SELECT * FROM flights ORDER BY sort_by
ASC|DESC` (deterministic stable sort). -/
def sortRows (rows : List Flight) (sort_by : String) (descending : Bool) : List Flight :=
  List.insertionSort (fun a b => keyLe sort_by descending a b = true) rows

/-- Executing the unfiltered list query with `LIMIT per_page OFFSET
(page-1)*per_page`: sort, drop the offset, take the limit (src/main.py
lines 228-237in model form). -/
def runListQuery (db : DB) (sort_by : String) (descending : Bool)
    (limit offset : Nat) : List Flight :=
  ((sortRows db.rows sort_by descending).drop offset).take limit

/-! ## Query-builder characterization lemmas -/

theorem selectClause_ok (columns sel : String)
    (h : selectClause columns = .ok sel) :
    (columns = "*" ∧ sel = "*") ∨
    (sel = String.intercalate "," (pySplitComma columns) ∧
      ∀ c ∈ pySplitComma columns, allowed_columns.contains (pyStrip c) = true) := by
  unfold selectClause at h
  by_cases hc : columns = "*"
  · left
    simp only [hc, ne_eq, not_true_eq_false, if_false, ite_false] at h
    cases h
    exact ⟨hc, rfl⟩
  · right
    simp only [ne_eq, hc, not_false_eq_true, if_true, ite_true] at h
    cases hfind : (pySplitComma columns).find?
        (fun col => ¬ allowed_columns.contains (pyStrip col)) with
    | some col => rw [hfind] at h; cases h
    | none =>
      rw [hfind] at h
      cases h
      refine ⟨rfl, fun c hmem => ?_⟩
      have := List.find?_eq_none.mp hfind c hmem
      simpa using this

theorem selectClause_names_column (columns col : String) (hne : columns ≠ "*")
    (hfind : (pySplitComma columns).find?
      (fun c => ¬ allowed_columns.contains (pyStrip c)) = some col) :
    selectClause columns = .error (.http 400 ("Invalid column: " ++ col)) := by
  unfold selectClause
  simp only [ne_eq, hne, not_false_eq_true, if_true, ite_true, hfind]

theorem filterClause_ok (ff fv : Option String) (w : String) (wps : List SqlParam)
    (h : filterClause ff fv = .ok (w, wps)) :
    (w = "" ∧ wps = [] ∧ (truthy ff && truthy fv) = false) ∨
    (∃ f v, ff = some f ∧ fv = some v ∧ f ≠ "" ∧ v ≠ "" ∧
      allowed_columns.contains f = true ∧
      w = " WHERE " ++ f ++ " LIKE ?" ∧ wps = [.str ("%" ++ v ++ "%")]) := by
  unfold filterClause at h
  by_cases ht : (truthy ff && truthy fv) = true
  · right
    rw [if_pos ht] at h
    have hff : truthy ff = true := (Bool.and_eq_true _ _ ▸ ht).1
    have hfv : truthy fv = true := (Bool.and_eq_true _ _ ▸ ht).2
    cases ff with
    | none => simp [truthy] at hff
    | some f =>
      cases fv with
      | none => simp [truthy] at hfv
      | some v =>
        have hf : f ≠ "" := by simpa [truthy] using hff
        have hv : v ≠ "" := by simpa [truthy] using hfv
        by_cases hall : allowed_columns.contains f = true
        · simp only [Option.getD_some, hall, if_true, ite_true] at h
          cases h
          exact ⟨f, v, rfl, rfl, hf, hv, hall, rfl, rfl⟩
        · simp only [Option.getD_some, hall, if_false, ite_false] at h
          cases h
  · left
    rw [if_neg ht] at h
    cases h
    exact ⟨rfl, rfl, Bool.not_eq_true _ ▸ ht⟩

theorem filterClause_skip (ff fv : Option String) (h : truthy fv = false) :
    filterClause ff fv = .ok ("", []) := by
  unfold filterClause
  rw [if_neg]
  rw [h, Bool.and_false]
  exact Bool.false_ne_true

theorem filterClause_invalid (f v : String) (hf : f ≠ "") (hv : v ≠ "")
    (hall : allowed_columns.contains f = false) :
    filterClause (some f) (some v) = .error (.http 400 "Invalid filter field") := by
  unfold filterClause
  rw [if_pos]
  · simp only [Option.getD_some]
    rw [if_neg]
    simpa using hall
  · simp [truthy, hf, hv]

theorem buildListQuery_ok (page per_page : Int) (sort_by sort_order columns : String)
    (ff fv : Option String) (q : String) (ps : List SqlParam)
    (h : buildListQuery page per_page sort_by sort_order columns ff fv = .ok (q, ps)) :
    ∃ sel w wps,
      selectClause columns = .ok sel ∧
      allowed_columns.contains sort_by = true ∧
      filterClause ff fv = .ok (w, wps) ∧
      q = "SELECT " ++ sel ++ " FROM " ++ TABLE_NAME ++ w ++ " ORDER BY "
          ++ sort_by ++ " " ++ pyUpper sort_order ++ " LIMIT ? OFFSET ?" ∧
      ps = wps ++ [.int per_page, .int ((page - 1) * per_page)] := by
  unfold buildListQuery at h
  split at h
  next e hsel => exact absurd h (by simp)
  next sel hsel =>
    split at h
    next hs =>
      split at h
      next e hflt => exact absurd h (by simp)
      next w wps hflt =>
        cases h
        exact ⟨sel, w, wps, hsel, hs, hflt, rfl, rfl⟩
    next hs => exact absurd h (by simp)

theorem buildListQuery_badSort (page per_page : Int)
    (sort_by sort_order columns sel : String) (ff fv : Option String)
    (hsel : selectClause columns = .ok sel)
    (hs : allowed_columns.contains sort_by = false) :
    buildListQuery page per_page sort_by sort_order columns ff fv =
      .error (.http 400 "Invalid sort column") := by
  unfold buildListQuery
  simp only [hsel, hs]
  simp

theorem buildListQuery_selErr (page per_page : Int)
    (sort_by sort_order columns : String) (ff fv : Option String) (e : ApiErr)
    (hsel : selectClause columns = .error e) :
    buildListQuery page per_page sort_by sort_order columns ff fv = .error e := by
  unfold buildListQuery
  simp only [hsel]

theorem buildListQuery_filterErr (page per_page : Int)
    (sort_by sort_order columns sel : String) (ff fv : Option String) (e : ApiErr)
    (hsel : selectClause columns = .ok sel)
    (hs : allowed_columns.contains sort_by = true)
    (hflt : filterClause ff fv = .error e) :
    buildListQuery page per_page sort_by sort_order columns ff fv = .error e := by
  unfold buildListQuery
  simp only [hsel, hs, if_true, hflt]

theorem get_flights_ok (page per_page : Int) (sort_by sort_order columns : String)
    (ff fv : Option String) (q : String) (ps : List SqlParam)
    (h : get_flights page per_page sort_by sort_order columns ff fv = .ok (q, ps)) :
    1 ≤ page ∧ 1 ≤ per_page ∧ per_page ≤ 100 ∧
    (sort_order = "asc" ∨ sort_order = "desc") ∧
    buildListQuery page per_page sort_by sort_order columns ff fv = .ok (q, ps) := by
  unfold get_flights at h
  by_cases h1 : page < 1
  · rw [if_pos h1] at h; cases h
  · rw [if_neg h1] at h
    by_cases h2 : per_page < 1 ∨ 100 < per_page
    · rw [if_pos h2] at h; cases h
    · rw [if_neg h2] at h
      by_cases h3 : sort_order ≠ "asc" ∧ sort_order ≠ "desc"
      · rw [if_pos h3] at h; cases h
      · rw [if_neg h3] at h
        push_neg at h2 h3
        refine ⟨by omega, by omega, by omega, ?_, h⟩
        by_cases ha : sort_order = "asc"
        · exact .inl ha
        · exact .inr (h3 ha)

theorem get_flights_eq_build (page per_page : Int)
    (sort_by sort_order columns : String) (ff fv : Option String)
    (hp : 1 ≤ page) (hpp1 : 1 ≤ per_page) (hpp2 : per_page ≤ 100)
    (hso : sort_order = "asc" ∨ sort_order = "desc") :
    get_flights page per_page sort_by sort_order columns ff fv =
      buildListQuery page per_page sort_by sort_order columns ff fv := by
  unfold get_flights
  rw [if_neg (by omega), if_neg (by omega), if_neg]
  rcases hso with h | h <;> simp [h]

theorem pyUpper_sort_order (sort_order : String)
    (hso : sort_order = "asc" ∨ sort_order = "desc") :
    pyUpper sort_order = "ASC" ∨ pyUpper sort_order = "DESC" := by
  rcases hso with h | h <;> subst h
  · left; decide
  · right; decide

/-! ## Mutation-engine lemmas -/

theorem exists_row_any (s : SysState) (fid : Int)
    (h : ∃ r ∈ s.db.rows, r.flight_id = fid) :
    (s.db.rows.any (fun r => r.flight_id = fid)) = true := by
  obtain ⟨r, hmem, hid⟩ := h
  exact List.any_eq_true.mpr ⟨r, hmem, by simpa using hid⟩

theorem any_row_exists (s : SysState) (fid : Int)
    (h : (s.db.rows.any (fun r => r.flight_id = fid)) = true) :
    ∃ r ∈ s.db.rows, r.flight_id = fid := by
  obtain ⟨r, hmem, hid⟩ := List.any_eq_true.mp h
  exact ⟨r, hmem, by simpa using hid⟩

theorem update_flight_notFound (s : SysState) (fid : Int) (u : FlightUpdate)
    (t : String) (o : SyncOutcome)
    (h : ¬ ∃ r ∈ s.db.rows, r.flight_id = fid) :
    update_flight s fid u t o = (s, .error (.http 404 "Flight not found")) := by
  have hany : ¬ (s.db.rows.any (fun r => r.flight_id = fid)) = true :=
    fun hc => h (any_row_exists s fid hc)
  unfold update_flight
  rw [if_pos hany]

theorem update_flight_noFields (s : SysState) (fid : Int) (u : FlightUpdate)
    (t : String) (o : SyncOutcome)
    (hex : ∃ r ∈ s.db.rows, r.flight_id = fid) (hu : u.hasFields = false) :
    update_flight s fid u t o = (s, .error (.http 400 "No fields to update")) := by
  unfold update_flight
  rw [if_neg (not_not_intro (exists_row_any s fid hex)), if_pos (by simp [hu])]

theorem update_flight_applied (s : SysState) (fid : Int) (u : FlightUpdate)
    (t : String) (o : SyncOutcome)
    (hex : ∃ r ∈ s.db.rows, r.flight_id = fid) (hu : u.hasFields = true) :
    (update_flight s fid u t o).1.db.rows =
      s.db.rows.map (fun r => if r.flight_id = fid then applyUpdate r u t else r) := by
  unfold update_flight
  rw [if_neg (not_not_intro (exists_row_any s fid hex)), if_neg (by simp [hu])]
  cases o <;> rfl

theorem update_flight_response (s : SysState) (fid : Int) (u : FlightUpdate)
    (t : String)
    (hex : ∃ r ∈ s.db.rows, r.flight_id = fid) (hu : u.hasFields = true) :
    (update_flight s fid u t .ok).2 =
      .ok { message := "Flight updated", updated_fields := u,
            updated_fields_updated_at := t } ∧
    (∀ m, (update_flight s fid u t (.dbError m)).2 = .error (.http 500 m)) ∧
    (∀ m, (update_flight s fid u t (.ioError m)).2 = .error (.unhandled m)) := by
  refine ⟨?_, fun m => ?_, fun m => ?_⟩ <;>
    (unfold update_flight
     rw [if_neg (not_not_intro (exists_row_any s fid hex)), if_neg (by simp [hu])]
     rfl)

theorem delete_flight_notFound (s : SysState) (fid : Int) (o : SyncOutcome)
    (h : ¬ ∃ r ∈ s.db.rows, r.flight_id = fid) :
    delete_flight s fid o = (s, .error (.http 404 "Flight not found")) := by
  have hany : ¬ (s.db.rows.any (fun r => r.flight_id = fid)) = true :=
    fun hc => h (any_row_exists s fid hc)
  unfold delete_flight
  rw [if_pos hany]

theorem delete_flight_applied (s : SysState) (fid : Int) (o : SyncOutcome)
    (hex : ∃ r ∈ s.db.rows, r.flight_id = fid) :
    (delete_flight s fid o).1.db.rows =
      s.db.rows.filter (fun r => ¬ r.flight_id = fid) ∧
    (delete_flight s fid .ok).2 = .ok "Flight deleted" ∧
    (∀ m, (delete_flight s fid (.dbError m)).2 = .error (.http 500 m)) ∧
    (∀ m, (delete_flight s fid (.ioError m)).2 = .error (.unhandled m)) := by
  refine ⟨?_, ?_, fun m => ?_, fun m => ?_⟩ <;>
    (unfold delete_flight
     rw [if_neg (not_not_intro (exists_row_any s fid hex))])
  · cases o <;> rfl
  · rfl
  · rfl
  · rfl

theorem add_flight_eval (s : SysState) (f : FlightCreate) (t : String) :
    (∀ o, (add_flight s f t o).1.db.rows = s.db.rows ++ [insertRow f s.db.nextId t] ∧
          (add_flight s f t o).1.db.nextId = s.db.nextId + 1) ∧
    (add_flight s f t .ok).2 =
      .ok { flight := insertRow f s.db.nextId t, message := "Flight created" } ∧
    (∀ m, (add_flight s f t (.dbError m)).2 = .error (.http 500 m)) ∧
    (∀ m, (add_flight s f t (.ioError m)).2 = .error (.unhandled m)) := by
  refine ⟨fun o => ?_, rfl, fun m => rfl, fun m => rfl⟩
  cases o <;> exact ⟨rfl, rfl⟩

/-! ## Pagination lemmas -/

theorem take_one_drop_flatten {α : Type} (l : List α) :
    (List.range l.length).flatMap (fun i => (l.drop i).take 1) = l := by
  induction l with
  | nil => rfl
  | cons a l ih =>
    have hr : List.range (a :: l).length = 0 :: (List.range l.length).map Nat.succ := by
      rw [List.length_cons, List.range_succ_eq_map]
    rw [hr, List.flatMap_cons, List.flatMap_map]
    show a :: ((List.range l.length).flatMap fun i => ((l.drop i).take 1)) = a :: l
    rw [ih]

theorem pages_cover (db : DB) (k : String) (d : Bool) :
    (List.range' 1 db.rows.length).flatMap
        (fun p => runListQuery db k d 1 ((p - 1) * 1)) =
      sortRows db.rows k d ∧
    (sortRows db.rows k d).Perm db.rows := by
  have hperm : (sortRows db.rows k d).Perm db.rows :=
    List.perm_insertionSort _ db.rows
  refine ⟨?_, hperm⟩
  have hlen : db.rows.length = (sortRows db.rows k d).length := hperm.length_eq.symm
  rw [List.range'_eq_map_range, List.flatMap_map]
  have hfun : (fun a => runListQuery db k d 1 ((1 + a - 1) * 1)) =
      (fun i => ((sortRows db.rows k d).drop i).take 1) := by
    funext i
    have : (1 + i - 1) * 1 = i := by omega
    rw [this, runListQuery]
  rw [hfun, hlen, take_one_drop_flatten]

/-! ## Claims -/

/-- C1: for every input on which `get_flights` composes its query without
error, the query text contains in identifier positions only tokens
validated against the safelist — selected column names whose stripped form
is in `allowed_columns` (or the wildcard), the fixed table name, the
validated sort column, and the uppercased sort-direction keyword — while
the filter value, limit and offset appear exclusively in the
bound-parameter sequence, the query text holding only `?` placeholders for
them. -/
theorem C1_identifiers_safelisted_values_bound
    (page per_page : Int) (sort_by sort_order columns : String)
    (filter_field filter_value : Option String) (q : String) (ps : List SqlParam)
    (h : get_flights page per_page sort_by sort_order columns filter_field filter_value
        = .ok (q, ps)) :
    ∃ sel w wps,
      ((columns = "*" ∧ sel = "*") ∨
        (sel = String.intercalate "," (pySplitComma columns) ∧
          ∀ c ∈ pySplitComma columns, allowed_columns.contains (pyStrip c) = true)) ∧
      allowed_columns.contains sort_by = true ∧
      (pyUpper sort_order = "ASC" ∨ pyUpper sort_order = "DESC") ∧
      ((w = "" ∧ wps = []) ∨
        (∃ f v, filter_field = some f ∧ filter_value = some v ∧
          allowed_columns.contains f = true ∧
          w = " WHERE " ++ f ++ " LIKE ?" ∧ wps = [.str ("%" ++ v ++ "%")])) ∧
      q = "SELECT " ++ sel ++ " FROM " ++ TABLE_NAME ++ w ++ " ORDER BY "
          ++ sort_by ++ " " ++ pyUpper sort_order ++ " LIMIT ? OFFSET ?" ∧
      ps = wps ++ [.int per_page, .int ((page - 1) * per_page)] := by
  obtain ⟨hp, hpp1, hpp2, hso, hb⟩ := get_flights_ok _ _ _ _ _ _ _ _ _ h
  obtain ⟨sel, w, wps, hsel, hs, hflt, hq, hps⟩ := buildListQuery_ok _ _ _ _ _ _ _ _ _ hb
  refine ⟨sel, w, wps, selectClause_ok _ _ hsel, hs, pyUpper_sort_order _ hso, ?_, hq, hps⟩
  rcases filterClause_ok _ _ _ _ hflt with ⟨hw, hwps, _⟩ | ⟨f, v, hf, hv, _, _, hall, hw, hwps⟩
  · exact .inl ⟨hw, hwps⟩
  · exact .inr ⟨f, v, hf, hv, hall, hw, hwps⟩

/-- Witness for C1 at a concrete filtered request. -/
theorem C1_identifiers_safelisted_values_bound_witness :
    ∃ sel w wps,
      ((("*" : String) = "*" ∧ sel = "*") ∨
        (sel = String.intercalate "," (pySplitComma "*") ∧
          ∀ c ∈ pySplitComma "*", allowed_columns.contains (pyStrip c) = true)) ∧
      allowed_columns.contains "flight_id" = true ∧
      (pyUpper "asc" = "ASC" ∨ pyUpper "asc" = "DESC") ∧
      ((w = "" ∧ wps = []) ∨
        (∃ f v, (some "origin" : Option String) = some f ∧
          (some "JED" : Option String) = some v ∧
          allowed_columns.contains f = true ∧
          w = " WHERE " ++ f ++ " LIKE ?" ∧ wps = [.str ("%" ++ v ++ "%")])) ∧
      "SELECT * FROM flights WHERE origin LIKE ? ORDER BY flight_id ASC LIMIT ? OFFSET ?"
        = "SELECT " ++ sel ++ " FROM " ++ TABLE_NAME ++ w ++ " ORDER BY "
          ++ "flight_id" ++ " " ++ pyUpper "asc" ++ " LIMIT ? OFFSET ?" ∧
      ([.str "%JED%", .int 10, .int 0] : List SqlParam)
        = wps ++ [.int 10, .int (((1 : Int) - 1) * 10)] :=
  C1_identifiers_safelisted_values_bound 1 10 "flight_id" "asc" "*"
    (some "origin") (some "JED")
    "SELECT * FROM flights WHERE origin LIKE ? ORDER BY flight_id ASC LIMIT ? OFFSET ?"
    [.str "%JED%", .int 10, .int 0] (by decide)

/-- C4: when both filter field and a non-empty filter value are supplied
and the request succeeds, the built query filters via the `LIKE`
pattern-match operator, the bound pattern wrapping the value with `%`
wildcards on both sides — not exact equality — uniformly for every
safelisted column, numeric columns included. -/
theorem C4_filter_substring_match
    (page per_page : Int) (sort_by sort_order columns f v : String)
    (q : String) (ps : List SqlParam)
    (hf : f ≠ "") (hv : v ≠ "")
    (h : get_flights page per_page sort_by sort_order columns (some f) (some v)
        = .ok (q, ps)) :
    allowed_columns.contains f = true ∧
    (∃ sel, selectClause columns = .ok sel ∧
      q = "SELECT " ++ sel ++ " FROM " ++ TABLE_NAME ++ (" WHERE " ++ f ++ " LIKE ?")
          ++ " ORDER BY " ++ sort_by ++ " " ++ pyUpper sort_order
          ++ " LIMIT ? OFFSET ?") ∧
    ps = [.str ("%" ++ v ++ "%"), .int per_page, .int ((page - 1) * per_page)] := by
  obtain ⟨_, _, _, hso, hb⟩ := get_flights_ok _ _ _ _ _ _ _ _ _ h
  obtain ⟨sel, w, wps, hsel, hs, hflt, hq, hps⟩ := buildListQuery_ok _ _ _ _ _ _ _ _ _ hb
  rcases filterClause_ok _ _ _ _ hflt with ⟨hw, hwps, hfalse⟩ |
      ⟨f', v', hf', hv', _, _, hall, hw, hwps⟩
  · exfalso
    simp [truthy, hf, hv] at hfalse
  · obtain rfl : f = f' := Option.some.inj hf'
    obtain rfl : v = v' := Option.some.inj hv'
    subst hw hwps
    refine ⟨hall, ⟨sel, hsel, ?_⟩, ?_⟩
    · rw [hq]
    · rw [hps]
      rfl

/-- Witness for C4 on a numeric column. -/
theorem C4_filter_substring_match_witness :
    allowed_columns.contains "duration_minutes" = true ∧
    (∃ sel, selectClause "*" = .ok sel ∧
      "SELECT * FROM flights WHERE duration_minutes LIKE ? ORDER BY flight_id ASC LIMIT ? OFFSET ?"
        = "SELECT " ++ sel ++ " FROM " ++ TABLE_NAME
          ++ (" WHERE " ++ "duration_minutes" ++ " LIKE ?")
          ++ " ORDER BY " ++ "flight_id" ++ " " ++ pyUpper "asc"
          ++ " LIMIT ? OFFSET ?") ∧
    ([.str "%5%", .int 10, .int 0] : List SqlParam)
      = [.str ("%" ++ "5" ++ "%"), .int 10, .int (((1 : Int) - 1) * 10)] :=
  C4_filter_substring_match 1 10 "flight_id" "asc" "*" "duration_minutes" "5"
    "SELECT * FROM flights WHERE duration_minutes LIKE ? ORDER BY flight_id ASC LIMIT ? OFFSET ?"
    [.str "%5%", .int 10, .int 0] (by decide) (by decide) (by decide)

/-- C9: the successful list query's bound parameters end with limit
`per_page` and offset `(page-1)*per_page`; and over any fixed store with
no intervening mutation and no filter, requesting one record per page for
pages `1..N` (offset `(p-1)*1`, limit `1`) yields exactly the full sorted
result — each record exactly once, collectively a permutation of the
store's rows, equal to the unpaginated result list. -/
theorem C9_pagination_offset_limit
    (page per_page : Int) (sort_by sort_order columns : String)
    (filter_field filter_value : Option String) (q : String) (ps : List SqlParam)
    (db : DB) (descending : Bool)
    (h : get_flights page per_page sort_by sort_order columns filter_field filter_value
        = .ok (q, ps)) :
    (∃ wps, ps = wps ++ [.int per_page, .int ((page - 1) * per_page)]) ∧
    (List.range' 1 db.rows.length).flatMap
        (fun p => runListQuery db sort_by descending 1 ((p - 1) * 1)) =
      sortRows db.rows sort_by descending ∧
    (sortRows db.rows sort_by descending).Perm db.rows := by
  obtain ⟨_, _, _, _, hb⟩ := get_flights_ok _ _ _ _ _ _ _ _ _ h
  obtain ⟨sel, w, wps, _, _, _, _, hps⟩ := buildListQuery_ok _ _ _ _ _ _ _ _ _ hb
  exact ⟨⟨wps, hps⟩, (pages_cover db sort_by descending).1,
    (pages_cover db sort_by descending).2⟩

/-- Two seed rows used by concrete witnesses (the sample data of
src/main.py lines 30-63). -/
def seedRow1 : Flight :=
  { flight_id := 1, flight_number := "SP1001", origin := "JED",
    destination := "JED", departure_time := "2025-11-08T01:00:00",
    arrival_time := "2025-11-08T01:57:00", duration_minutes := 57,
    aircraft_type := "A321", seats_total := 150, seats_available := 26,
    status := "departed", created_at := "2025-10-10T01:00:00",
    updated_at := "2025-11-08T01:00:00", process_id := "P-238" }

/-- Second seed row (src/main.py lines 47-62). -/
def seedRow2 : Flight :=
  { flight_id := 2, flight_number := "SP1002", origin := "THR",
    destination := "JED", departure_time := "2025-11-05T18:00:00",
    arrival_time := "2025-11-05T19:00:00", duration_minutes := 60,
    aircraft_type := "A321", seats_total := 250, seats_available := 6,
    status := "departed", created_at := "2025-10-13T18:00:00",
    updated_at := "2025-11-02T18:00:00", process_id := "P-215" }

/-- The store state right after bootstrap load of the two seed rows. -/
def seedState : SysState :=
  { db := { rows := [seedRow1, seedRow2], nextId := 3 },
    file := [seedRow1, seedRow2] }

/-- Witness for C9 over the two-row seed store. -/
theorem C9_pagination_offset_limit_witness :
    (∃ wps, ([.int 10, .int 0] : List SqlParam)
      = wps ++ [.int 10, .int (((1 : Int) - 1) * 10)]) ∧
    (List.range' 1 seedState.db.rows.length).flatMap
        (fun p => runListQuery seedState.db "flight_id" false 1 ((p - 1) * 1)) =
      sortRows seedState.db.rows "flight_id" false ∧
    (sortRows seedState.db.rows "flight_id" false).Perm seedState.db.rows :=
  C9_pagination_offset_limit 1 10 "flight_id" "asc" "*" none none
    "SELECT * FROM flights ORDER BY flight_id ASC LIMIT ? OFFSET ?"
    [.int 10, .int 0] seedState.db false (by decide)

/-- C10: when the filter value is absent or the empty string, the list
operation behaves exactly as if no filter was requested: the filter field
is not validated at all (the result coincides with the filterless call for
every `filter_field`, known or not), and with otherwise-valid inputs the
request succeeds. -/
theorem C10_missing_filter_value_skips_validation
    (page per_page : Int) (sort_by sort_order columns : String)
    (filter_field filter_value : Option String)
    (hfv : filter_value = none ∨ filter_value = some "") :
    get_flights page per_page sort_by sort_order columns filter_field filter_value =
      get_flights page per_page sort_by sort_order columns none none ∧
    (∀ sel, 1 ≤ page → 1 ≤ per_page → per_page ≤ 100 →
      (sort_order = "asc" ∨ sort_order = "desc") →
      selectClause columns = .ok sel →
      allowed_columns.contains sort_by = true →
      get_flights page per_page sort_by sort_order columns filter_field filter_value
        = .ok ("SELECT " ++ sel ++ " FROM " ++ TABLE_NAME ++ "" ++ " ORDER BY "
                ++ sort_by ++ " " ++ pyUpper sort_order ++ " LIMIT ? OFFSET ?",
               [.int per_page, .int ((page - 1) * per_page)])) := by
  have hskip : filterClause filter_field filter_value = .ok ("", []) := by
    apply filterClause_skip
    rcases hfv with h | h <;> subst h <;> simp [truthy]
  have hskip0 : filterClause none none = .ok ("", []) :=
    filterClause_skip none none rfl
  have hbuild : ∀ pg pp sb so,
      buildListQuery pg pp sb so columns filter_field filter_value
        = buildListQuery pg pp sb so columns none none := by
    intro pg pp sb so
    unfold buildListQuery
    rw [hskip, hskip0]
  constructor
  · unfold get_flights
    by_cases h1 : page < 1
    · rw [if_pos h1, if_pos h1]
    · rw [if_neg h1, if_neg h1]
      by_cases h2 : per_page < 1 ∨ 100 < per_page
      · rw [if_pos h2, if_pos h2]
      · rw [if_neg h2, if_neg h2]
        by_cases h3 : sort_order ≠ "asc" ∧ sort_order ≠ "desc"
        · rw [if_pos h3, if_pos h3]
        · rw [if_neg h3, if_neg h3]
          exact hbuild page per_page sort_by sort_order
  · intro sel hp hpp1 hpp2 hso hsel hs
    rw [get_flights_eq_build page per_page sort_by sort_order columns
      filter_field filter_value hp hpp1 hpp2 hso]
    unfold buildListQuery
    simp only [hsel, hs, if_true, hskip]
    rfl

/-- Witness for C10: an unknown filter field with a missing filter value
is accepted and filtered-out silently. -/
theorem C10_missing_filter_value_skips_validation_witness :
    get_flights 1 10 "flight_id" "asc" "*" (some "bogus") none =
      get_flights 1 10 "flight_id" "asc" "*" none none ∧
    (∀ sel, 1 ≤ (1 : Int) → 1 ≤ (10 : Int) → (10 : Int) ≤ 100 →
      (("asc" : String) = "asc" ∨ ("asc" : String) = "desc") →
      selectClause "*" = .ok sel →
      allowed_columns.contains "flight_id" = true →
      get_flights 1 10 "flight_id" "asc" "*" (some "bogus") none
        = .ok ("SELECT " ++ sel ++ " FROM " ++ TABLE_NAME ++ "" ++ " ORDER BY "
                ++ "flight_id" ++ " " ++ pyUpper "asc" ++ " LIMIT ? OFFSET ?",
               [.int 10, .int (((1 : Int) - 1) * 10)])) :=
  C10_missing_filter_value_skips_validation 1 10 "flight_id" "asc" "*"
    (some "bogus") none (by decide)

/-- C5 counterexample: contrary to the claim, the uppercase sort order
"ASC" is not accepted — the `sort_order` validation pattern `^(asc|desc)$`
is case-sensitive, so the request is rejected by the validation layer. -/
theorem C5_counterexample_uppercase_rejected :
    get_flights 1 10 "flight_id" "ASC" "*" none none =
      .error (.http 422 "sort_order: string should match pattern (asc|desc)") := by
  decide

/-- C5 (amended): the list operation accepts sortOrder only as the exact
lowercase strings "asc" and "desc"; any other value — "ASC" and "Desc"
included — is rejected as a client validation error (for pagination inputs
passing their own checks), and the accepted value is normalized to
uppercase in the composed ORDER BY clause. -/
theorem C5_sort_order_lowercase_only
    (page per_page : Int) (sort_by sort_order columns : String)
    (filter_field filter_value : Option String)
    (hp : 1 ≤ page) (hpp1 : 1 ≤ per_page) (hpp2 : per_page ≤ 100) :
    (sort_order ≠ "asc" ∧ sort_order ≠ "desc" →
      get_flights page per_page sort_by sort_order columns filter_field filter_value =
        .error (.http 422 "sort_order: string should match pattern (asc|desc)")) ∧
    (∀ q ps, get_flights page per_page sort_by sort_order columns filter_field filter_value
        = .ok (q, ps) →
      (sort_order = "asc" ∨ sort_order = "desc") ∧
      (pyUpper sort_order = "ASC" ∨ pyUpper sort_order = "DESC") ∧
      ∃ pre, q = pre ++ " ORDER BY " ++ sort_by ++ " " ++ pyUpper sort_order
          ++ " LIMIT ? OFFSET ?") := by
  constructor
  · intro hbad
    unfold get_flights
    rw [if_neg (by omega), if_neg (by omega), if_pos hbad]
  · intro q ps h
    obtain ⟨_, _, _, hso, hb⟩ := get_flights_ok _ _ _ _ _ _ _ _ _ h
    obtain ⟨sel, w, wps, _, _, _, hq, _⟩ := buildListQuery_ok _ _ _ _ _ _ _ _ _ hb
    exact ⟨hso, pyUpper_sort_order _ hso,
      ⟨"SELECT " ++ sel ++ " FROM " ++ TABLE_NAME ++ w, by rw [hq]⟩⟩

/-- Witness for C5 (amended) at the rejected mixed-case value "Desc". -/
theorem C5_sort_order_lowercase_only_witness :
    (("Desc" : String) ≠ "asc" ∧ ("Desc" : String) ≠ "desc" →
      get_flights 1 10 "flight_id" "Desc" "*" none none =
        .error (.http 422 "sort_order: string should match pattern (asc|desc)")) ∧
    (∀ q ps, get_flights 1 10 "flight_id" "Desc" "*" none none = .ok (q, ps) →
      (("Desc" : String) = "asc" ∨ ("Desc" : String) = "desc") ∧
      (pyUpper "Desc" = "ASC" ∨ pyUpper "Desc" = "DESC") ∧
      ∃ pre, q = pre ++ " ORDER BY " ++ "flight_id" ++ " " ++ pyUpper "Desc"
          ++ " LIMIT ? OFFSET ?") :=
  C5_sort_order_lowercase_only 1 10 "flight_id" "Desc" "*" none none
    (by decide) (by decide) (by decide)

/-- C6 counterexample: an unknown sort column "bogus" is rejected with the
fixed detail "Invalid sort column", which does not contain the offending
identifier at all. -/
theorem C6_counterexample_error_without_identifier :
    get_flights 1 10 "bogus" "asc" "*" none none =
      .error (.http 400 "Invalid sort column") ∧
    ¬ ("bogus".data <:+: "Invalid sort column".data) :=
  ⟨by decide, by decide⟩

/-- C6 (amended): a rejected `columns` input produces an error naming the
offending column ("Invalid column: {col}"); rejected `sort_by` and
`filter_field` inputs instead produce the fixed messages "Invalid sort
column" and "Invalid filter field", which do not carry the offending
identifier. -/
theorem C6_rejection_messages
    (page per_page : Int) (sort_by sort_order columns : String)
    (filter_field filter_value : Option String)
    (hp : 1 ≤ page) (hpp1 : 1 ≤ per_page) (hpp2 : per_page ≤ 100)
    (hso : sort_order = "asc" ∨ sort_order = "desc") :
    (∀ col, columns ≠ "*" →
      (pySplitComma columns).find? (fun c => ¬ allowed_columns.contains (pyStrip c))
        = some col →
      get_flights page per_page sort_by sort_order columns filter_field filter_value
        = .error (.http 400 ("Invalid column: " ++ col))) ∧
    (∀ sel, selectClause columns = .ok sel →
      allowed_columns.contains sort_by = false →
      get_flights page per_page sort_by sort_order columns filter_field filter_value
        = .error (.http 400 "Invalid sort column")) ∧
    (∀ sel f v, selectClause columns = .ok sel →
      allowed_columns.contains sort_by = true →
      filter_field = some f → filter_value = some v → f ≠ "" → v ≠ "" →
      allowed_columns.contains f = false →
      get_flights page per_page sort_by sort_order columns filter_field filter_value
        = .error (.http 400 "Invalid filter field")) := by
  have heq := get_flights_eq_build page per_page sort_by sort_order columns
    filter_field filter_value hp hpp1 hpp2 hso
  refine ⟨?_, ?_, ?_⟩
  · intro col hne hfind
    rw [heq]
    exact buildListQuery_selErr page per_page sort_by sort_order columns
      filter_field filter_value _ (selectClause_names_column columns col hne hfind)
  · intro sel hsel hbad
    rw [heq]
    exact buildListQuery_badSort page per_page sort_by sort_order columns sel
      filter_field filter_value hsel hbad
  · intro sel f v hsel hsort hf hv hfne hvne hbad
    rw [heq]
    subst hf hv
    exact buildListQuery_filterErr page per_page sort_by sort_order columns sel
      (some f) (some v) _ hsel hsort (filterClause_invalid f v hfne hvne hbad)

/-- Witness for C6 (amended) at concrete rejected inputs. -/
theorem C6_rejection_messages_witness :
    (∀ col, ("flight_id,nope" : String) ≠ "*" →
      (pySplitComma "flight_id,nope").find?
          (fun c => ¬ allowed_columns.contains (pyStrip c)) = some col →
      get_flights 1 10 "flight_id" "asc" "flight_id,nope" (some "bogus") (some "x")
        = .error (.http 400 ("Invalid column: " ++ col))) ∧
    (∀ sel, selectClause "flight_id,nope" = .ok sel →
      allowed_columns.contains "flight_id" = false →
      get_flights 1 10 "flight_id" "asc" "flight_id,nope" (some "bogus") (some "x")
        = .error (.http 400 "Invalid sort column")) ∧
    (∀ sel f v, selectClause "flight_id,nope" = .ok sel →
      allowed_columns.contains "flight_id" = true →
      (some "bogus" : Option String) = some f →
      (some "x" : Option String) = some v → f ≠ "" → v ≠ "" →
      allowed_columns.contains f = false →
      get_flights 1 10 "flight_id" "asc" "flight_id,nope" (some "bogus") (some "x")
        = .error (.http 400 "Invalid filter field")) :=
  C6_rejection_messages 1 10 "flight_id" "asc" "flight_id,nope"
    (some "bogus") (some "x") (by decide) (by decide) (by decide) (by decide)

/-- A concrete Create body used by concrete witnesses. -/
def sampleCreate : FlightCreate :=
  { flight_number := "SP1003", origin := "JED", destination := "THR",
    departure_time := "2025-12-01T10:00:00",
    arrival_time := "2025-12-01T12:00:00", duration_minutes := 120,
    aircraft_type := "A321", seats_total := 180, seats_available := 180,
    status := "scheduled", process_id := "P-300" }

/-- C2 counterexample: at a concrete Create whose insert commits and whose
snapshot resync then raises `sqlite3.Error`, the caller receives a 500
error response instead of the success response — so the resync failure IS
surfaced, contrary to the claim. -/
theorem C2_counterexample_sync_error_surfaced :
    (add_flight seedState sampleCreate "2025-12-01 09:00:00"
        (.dbError "disk I/O error")).2
      = .error (.http 500 "disk I/O error") := by
  decide

/-- C2 (amended): when the snapshot resync fails after a successfully
committed Create, Update, or Delete, the committed mutation is indeed not
rolled back, but the failure IS surfaced to the caller: a `sqlite3.Error`
raised during resync becomes an HTTP 500 `HTTPException`, and any other
exception escapes the handler as an unhandled server error; the success
response is not returned. -/
theorem C2_sync_failure_surfaced_not_rolled_back
    (s : SysState) (f : FlightCreate) (fid : Int) (u : FlightUpdate)
    (t m : String) (o : SyncOutcome)
    (ho : o = .dbError m ∨ o = .ioError m) :
    (insertRow f s.db.nextId t ∈ (add_flight s f t o).1.db.rows ∧
      (add_flight s f t o).2
        = .error (if o = .dbError m then .http 500 m else .unhandled m)) ∧
    ((∃ r ∈ s.db.rows, r.flight_id = fid) → u.hasFields = true →
      ((update_flight s fid u t o).1.db.rows =
        s.db.rows.map (fun r => if r.flight_id = fid then applyUpdate r u t else r) ∧
       (update_flight s fid u t o).2
        = .error (if o = .dbError m then .http 500 m else .unhandled m))) ∧
    ((∃ r ∈ s.db.rows, r.flight_id = fid) →
      ((delete_flight s fid o).1.db.rows =
        s.db.rows.filter (fun r => ¬ r.flight_id = fid) ∧
       (delete_flight s fid o).2
        = .error (if o = .dbError m then .http 500 m else .unhandled m))) := by
  rcases ho with rfl | rfl
  · refine ⟨⟨?_, ?_⟩, fun hex hu => ⟨update_flight_applied s fid u t _ hex hu, ?_⟩,
      fun hex => ⟨(delete_flight_applied s fid _ hex).1, ?_⟩⟩
    · rw [((add_flight_eval s f t).1 _).1]
      simp
    · rw [if_pos rfl]
      exact (add_flight_eval s f t).2.2.1 m
    · rw [if_pos rfl]
      exact (update_flight_response s fid u t hex hu).2.1 m
    · rw [if_pos rfl]
      exact (delete_flight_applied s fid (.dbError m) hex).2.2.1 m
  · refine ⟨⟨?_, ?_⟩, fun hex hu => ⟨update_flight_applied s fid u t _ hex hu, ?_⟩,
      fun hex => ⟨(delete_flight_applied s fid _ hex).1, ?_⟩⟩
    · rw [((add_flight_eval s f t).1 _).1]
      simp
    · rw [if_neg (by simp)]
      exact (add_flight_eval s f t).2.2.2 m
    · rw [if_neg (by simp)]
      exact (update_flight_response s fid u t hex hu).2.2 m
    · rw [if_neg (by simp)]
      exact (delete_flight_applied s fid (.ioError m) hex).2.2.2 m

/-- Witness for C2 (amended) at a concrete failing resync after Create,
Update and Delete on the seed store. -/
theorem C2_sync_failure_surfaced_not_rolled_back_witness :
    (insertRow sampleCreate seedState.db.nextId "2025-12-01 09:00:00"
        ∈ (add_flight seedState sampleCreate "2025-12-01 09:00:00"
            (.dbError "disk full")).1.db.rows ∧
      (add_flight seedState sampleCreate "2025-12-01 09:00:00"
          (.dbError "disk full")).2
        = .error (if (SyncOutcome.dbError "disk full") = .dbError "disk full"
            then .http 500 "disk full" else .unhandled "disk full")) ∧
    ((∃ r ∈ seedState.db.rows, r.flight_id = 1) →
      FlightUpdate.hasFields { status := some "cancelled" } = true →
      ((update_flight seedState 1 { status := some "cancelled" }
          "2025-12-01 09:00:00" (.dbError "disk full")).1.db.rows =
        seedState.db.rows.map
          (fun r => if r.flight_id = 1
            then applyUpdate r { status := some "cancelled" } "2025-12-01 09:00:00"
            else r) ∧
       (update_flight seedState 1 { status := some "cancelled" }
          "2025-12-01 09:00:00" (.dbError "disk full")).2
        = .error (if (SyncOutcome.dbError "disk full") = .dbError "disk full"
            then .http 500 "disk full" else .unhandled "disk full"))) ∧
    ((∃ r ∈ seedState.db.rows, r.flight_id = 1) →
      ((delete_flight seedState 1 (.dbError "disk full")).1.db.rows =
        seedState.db.rows.filter (fun r => ¬ r.flight_id = 1) ∧
       (delete_flight seedState 1 (.dbError "disk full")).2
        = .error (if (SyncOutcome.dbError "disk full") = .dbError "disk full"
            then .http 500 "disk full" else .unhandled "disk full"))) :=
  C2_sync_failure_surfaced_not_rolled_back seedState sampleCreate 1
    { status := some "cancelled" } "2025-12-01 09:00:00" "disk full"
    (.dbError "disk full") (by decide)

/-- C3: a successful sparse Update writes exactly the supplied fields plus
`updated_at`: the targeted row's image carries each supplied field's new
value and `updated_at := t`, while `flight_id`, `created_at` and every
omitted field keep their prior values; rows with other ids are untouched,
and the response reports success even when the client supplied no
substantive change. -/
theorem C3_update_frame
    (s : SysState) (fid : Int) (u : FlightUpdate) (t : String) (r : Flight)
    (hmem : r ∈ s.db.rows) (hid : r.flight_id = fid) (hu : u.hasFields = true) :
    (update_flight s fid u t .ok).2
      = .ok { message := "Flight updated", updated_fields := u,
              updated_fields_updated_at := t } ∧
    (∃ r' ∈ (update_flight s fid u t .ok).1.db.rows,
      r'.flight_id = r.flight_id ∧
      r'.created_at = r.created_at ∧
      r'.updated_at = t ∧
      r'.flight_number = u.flight_number.getD r.flight_number ∧
      r'.origin = u.origin.getD r.origin ∧
      r'.destination = u.destination.getD r.destination ∧
      r'.departure_time = u.departure_time.getD r.departure_time ∧
      r'.arrival_time = u.arrival_time.getD r.arrival_time ∧
      r'.duration_minutes = u.duration_minutes.getD r.duration_minutes ∧
      r'.aircraft_type = u.aircraft_type.getD r.aircraft_type ∧
      r'.seats_total = u.seats_total.getD r.seats_total ∧
      r'.seats_available = u.seats_available.getD r.seats_available ∧
      r'.status = u.status.getD r.status ∧
      r'.process_id = u.process_id.getD r.process_id) ∧
    (∀ r2 ∈ s.db.rows, r2.flight_id ≠ fid →
      r2 ∈ (update_flight s fid u t .ok).1.db.rows) := by
  have hex : ∃ rr ∈ s.db.rows, rr.flight_id = fid := ⟨r, hmem, hid⟩
  have hrows := update_flight_applied s fid u t .ok hex hu
  refine ⟨(update_flight_response s fid u t hex hu).1, ?_, ?_⟩
  · refine ⟨applyUpdate r u t, ?_, rfl, rfl, rfl, rfl, rfl, rfl, rfl, rfl, rfl,
      rfl, rfl, rfl, rfl, rfl⟩
    rw [hrows]
    have h1 := List.mem_map_of_mem
      (fun rr => if rr.flight_id = fid then applyUpdate rr u t else rr) hmem
    simpa [hid] using h1
  · intro r2 hmem2 hne
    rw [hrows]
    have h2 := List.mem_map_of_mem
      (fun rr => if rr.flight_id = fid then applyUpdate rr u t else rr) hmem2
    simpa [hne] using h2

/-- Witness for C3: updating only `status` of seed row 1. -/
theorem C3_update_frame_witness :
    (update_flight seedState 1 { status := some "cancelled" }
        "2025-12-01 09:00:00" .ok).2
      = .ok { message := "Flight updated",
              updated_fields := { status := some "cancelled" },
              updated_fields_updated_at := "2025-12-01 09:00:00" } ∧
    (∃ r' ∈ (update_flight seedState 1 { status := some "cancelled" }
        "2025-12-01 09:00:00" .ok).1.db.rows,
      r'.flight_id = seedRow1.flight_id ∧
      r'.created_at = seedRow1.created_at ∧
      r'.updated_at = "2025-12-01 09:00:00" ∧
      r'.flight_number = (FlightUpdate.flight_number
        { status := some "cancelled" }).getD seedRow1.flight_number ∧
      r'.origin = (FlightUpdate.origin
        { status := some "cancelled" }).getD seedRow1.origin ∧
      r'.destination = (FlightUpdate.destination
        { status := some "cancelled" }).getD seedRow1.destination ∧
      r'.departure_time = (FlightUpdate.departure_time
        { status := some "cancelled" }).getD seedRow1.departure_time ∧
      r'.arrival_time = (FlightUpdate.arrival_time
        { status := some "cancelled" }).getD seedRow1.arrival_time ∧
      r'.duration_minutes = (FlightUpdate.duration_minutes
        { status := some "cancelled" }).getD seedRow1.duration_minutes ∧
      r'.aircraft_type = (FlightUpdate.aircraft_type
        { status := some "cancelled" }).getD seedRow1.aircraft_type ∧
      r'.seats_total = (FlightUpdate.seats_total
        { status := some "cancelled" }).getD seedRow1.seats_total ∧
      r'.seats_available = (FlightUpdate.seats_available
        { status := some "cancelled" }).getD seedRow1.seats_available ∧
      r'.status = (FlightUpdate.status
        { status := some "cancelled" }).getD seedRow1.status ∧
      r'.process_id = (FlightUpdate.process_id
        { status := some "cancelled" }).getD seedRow1.process_id) ∧
    (∀ r2 ∈ seedState.db.rows, r2.flight_id ≠ 1 →
      r2 ∈ (update_flight seedState 1 { status := some "cancelled" }
        "2025-12-01 09:00:00" .ok).1.db.rows) :=
  C3_update_frame seedState 1 { status := some "cancelled" }
    "2025-12-01 09:00:00" seedRow1 (by decide) (by decide) (by decide)

/-- C7: Update yields NotFound exactly when the target id is absent; for
an existing record it yields the empty-update InvalidInput error exactly
when the sparse field map is empty; Delete yields NotFound exactly when
the id is absent; and in each of these rejection cases the store state is
unchanged. -/
theorem C7_precondition_errors
    (s : SysState) (fid : Int) (u : FlightUpdate) (t : String) (o : SyncOutcome) :
    ((update_flight s fid u t o).2 = .error (.http 404 "Flight not found") ↔
      ¬ ∃ r ∈ s.db.rows, r.flight_id = fid) ∧
    ((∃ r ∈ s.db.rows, r.flight_id = fid) →
      ((update_flight s fid u t o).2 = .error (.http 400 "No fields to update") ↔
        u.hasFields = false)) ∧
    ((delete_flight s fid o).2 = .error (.http 404 "Flight not found") ↔
      ¬ ∃ r ∈ s.db.rows, r.flight_id = fid) ∧
    ((¬ ∃ r ∈ s.db.rows, r.flight_id = fid) →
      (update_flight s fid u t o).1 = s ∧ (delete_flight s fid o).1 = s) ∧
    ((∃ r ∈ s.db.rows, r.flight_id = fid) → u.hasFields = false →
      (update_flight s fid u t o).1 = s) := by
  by_cases hex : ∃ r ∈ s.db.rows, r.flight_id = fid
  · have hdel404 : (delete_flight s fid o).2 ≠ .error (.http 404 "Flight not found") := by
      rcases o with _ | m | m
      · rw [(delete_flight_applied s fid SyncOutcome.ok hex).2.1]; simp
      · rw [(delete_flight_applied s fid (.dbError m) hex).2.2.1 m]; simp
      · rw [(delete_flight_applied s fid (.ioError m) hex).2.2.2 m]; simp
    by_cases hu : u.hasFields = true
    · have h404 : (update_flight s fid u t o).2 ≠ .error (.http 404 "Flight not found") := by
        rcases o with _ | m | m
        · rw [(update_flight_response s fid u t hex hu).1]; simp
        · rw [(update_flight_response s fid u t hex hu).2.1 m]; simp
        · rw [(update_flight_response s fid u t hex hu).2.2 m]; simp
      have h400 : (update_flight s fid u t o).2 ≠ .error (.http 400 "No fields to update") := by
        rcases o with _ | m | m
        · rw [(update_flight_response s fid u t hex hu).1]; simp
        · rw [(update_flight_response s fid u t hex hu).2.1 m]; simp
        · rw [(update_flight_response s fid u t hex hu).2.2 m]; simp
      refine ⟨iff_of_false h404 (not_not_intro hex), ?_, iff_of_false hdel404 (not_not_intro hex),
        fun hne => absurd hex hne, fun _ hfalse => ?_⟩
      · intro _
        exact iff_of_false h400 (by simp [hu])
      · rw [hu] at hfalse
        cases hfalse
    · have hufalse : u.hasFields = false := by
        cases hval : u.hasFields
        · rfl
        · exact absurd hval hu
      have hupd := update_flight_noFields s fid u t o hex hufalse
      refine ⟨?_, fun _ => ?_, iff_of_false hdel404 (not_not_intro hex),
        fun hne => absurd hex hne, fun _ _ => by rw [hupd]⟩
      · rw [hupd]
        exact iff_of_false (by simp) (not_not_intro hex)
      · rw [hupd]
        exact iff_of_true rfl hufalse
  · have hupd := update_flight_notFound s fid u t o hex
    have hdel := delete_flight_notFound s fid o hex
    refine ⟨?_, fun hex' => absurd hex' hex, ?_,
      fun _ => ⟨by rw [hupd], by rw [hdel]⟩, fun hex' _ => absurd hex' hex⟩
    · rw [hupd]
      exact iff_of_true rfl hex
    · rw [hdel]
      exact iff_of_true rfl hex

/-- Witness for C7: updating a missing id on the seed store returns
NotFound. -/
theorem C7_precondition_errors_witness :
    (update_flight seedState 5 {} "2025-12-01 09:00:00" SyncOutcome.ok).2
      = .error (.http 404 "Flight not found") :=
  (C7_precondition_errors seedState 5 {} "2025-12-01 09:00:00"
    SyncOutcome.ok).1.mpr (by decide)

/-- C8: a successful Create assigns the store's next identity — fresh and
strictly larger than every existing row's id — and one timestamp value
used for both `created_at` and `updated_at`, and returns the complete
persisted record: all client-supplied fields unchanged plus the populated
system fields, the very row appended to the store. -/
theorem C8_create_returns_persisted_record
    (s : SysState) (f : FlightCreate) (t : String)
    (hfresh : ∀ r ∈ s.db.rows, r.flight_id < s.db.nextId) :
    ∃ row,
      (add_flight s f t .ok).2 = .ok { flight := row, message := "Flight created" } ∧
      row ∈ (add_flight s f t .ok).1.db.rows ∧
      row.created_at = t ∧ row.updated_at = t ∧ row.created_at = row.updated_at ∧
      row.flight_number = f.flight_number ∧
      row.origin = f.origin ∧
      row.destination = f.destination ∧
      row.departure_time = f.departure_time ∧
      row.arrival_time = f.arrival_time ∧
      row.duration_minutes = f.duration_minutes ∧
      row.aircraft_type = f.aircraft_type ∧
      row.seats_total = f.seats_total ∧
      row.seats_available = f.seats_available ∧
      row.status = f.status ∧
      row.process_id = f.process_id ∧
      (∀ r ∈ s.db.rows, r.flight_id ≠ row.flight_id) ∧
      (∀ r ∈ s.db.rows, r.flight_id < row.flight_id) ∧
      (∀ r ∈ (add_flight s f t .ok).1.db.rows,
        r.flight_id < (add_flight s f t .ok).1.db.nextId) := by
  refine ⟨insertRow f s.db.nextId t, (add_flight_eval s f t).2.1, ?_, rfl, rfl, rfl,
    rfl, rfl, rfl, rfl, rfl, rfl, rfl, rfl, rfl, rfl, rfl, ?_, ?_, ?_⟩
  · rw [((add_flight_eval s f t).1 .ok).1]
    simp
  · exact fun r hr => ne_of_lt (hfresh r hr)
  · exact fun r hr => hfresh r hr
  · intro r hr
    rw [((add_flight_eval s f t).1 .ok).2]
    rw [((add_flight_eval s f t).1 .ok).1] at hr
    rcases List.mem_append.mp hr with h | h
    · have := hfresh r h
      omega
    · have hr2 : r = insertRow f s.db.nextId t := by simpa using h
      rw [hr2]
      show s.db.nextId < s.db.nextId + 1
      omega

/-- Witness for C8: creating a record on the seed store. -/
theorem C8_create_returns_persisted_record_witness :
    ∃ row,
      (add_flight seedState sampleCreate "2025-12-01 09:00:00" .ok).2
        = .ok { flight := row, message := "Flight created" } ∧
      row ∈ (add_flight seedState sampleCreate "2025-12-01 09:00:00" .ok).1.db.rows ∧
      row.created_at = "2025-12-01 09:00:00" ∧
      row.updated_at = "2025-12-01 09:00:00" ∧
      row.created_at = row.updated_at ∧
      row.flight_number = sampleCreate.flight_number ∧
      row.origin = sampleCreate.origin ∧
      row.destination = sampleCreate.destination ∧
      row.departure_time = sampleCreate.departure_time ∧
      row.arrival_time = sampleCreate.arrival_time ∧
      row.duration_minutes = sampleCreate.duration_minutes ∧
      row.aircraft_type = sampleCreate.aircraft_type ∧
      row.seats_total = sampleCreate.seats_total ∧
      row.seats_available = sampleCreate.seats_available ∧
      row.status = sampleCreate.status ∧
      row.process_id = sampleCreate.process_id ∧
      (∀ r ∈ seedState.db.rows, r.flight_id ≠ row.flight_id) ∧
      (∀ r ∈ seedState.db.rows, r.flight_id < row.flight_id) ∧
      (∀ r ∈ (add_flight seedState sampleCreate "2025-12-01 09:00:00" .ok).1.db.rows,
        r.flight_id
          < (add_flight seedState sampleCreate "2025-12-01 09:00:00" .ok).1.db.nextId) :=
  C8_create_returns_persisted_record seedState sampleCreate "2025-12-01 09:00:00"
    (by decide)

end FlightApi
